import Mathlib

/-!
Verification development for the ContainerImageOptimizer repository.

The core under verification is the rule-based Dockerfile rewrite engine
(`DockerfileOptimizer` in `dockerfile-optimizer.py`): three rewrite passes
(`optimize_apt_commands`, `optimize_pip_commands`, `optimize_copy_commands`)
followed by `add_build_optimization_args`, orchestrated in that order by
`DockerfileAnalyzer.analyze_dockerfile`, which also persists a `.dockerignore`
only when none exists.

Documents are modelled as `List Char`.  The Python `re` patterns used by the
source are embedded as abstract syntax (`RE`) and executed by a backtracking
matcher (`mrun`) that mirrors the Python engine's strategy (leftmost match,
left-biased alternation, lazy versus greedy repetition, lookahead, `$`
matching at end of subject or before a final newline, and `re.DOTALL` only
where the source passes it).  Python string primitives used by the source
(`str.find` including its negative-start clamping, `str.replace`, slicing
with negative indices, `str.split`, `sorted`, `re.sub(r'\n\n+', '\n\n', ·)`)
are modelled directly.
-/

namespace ContainerImageOptimizer

/-- The characters of a string literal, as the document representation. -/
def chars (s : String) : List Char := s.data

/-- Python `\s` on the ASCII range: space, tab, newline, carriage return,
vertical tab, form feed.  All documents considered are ASCII. -/
def isPySpace (c : Char) : Bool :=
  c = ' ' || c = '\t' || c = '\n' || c = '\r' || c = '\x0b' || c = '\x0c'

/-- Auxiliary scan for `pyFind`: lowest index `i ≥ start` at which `sub`
occurs in `s`, else `-1`. -/
def pyFindAux (s sub : List Char) : Nat → Nat → Int
  | 0, _ => -1
  | fuel + 1, i =>
    if i > s.length then -1
    else if sub.isPrefixOf (s.drop i) then (i : Int)
    else pyFindAux s sub fuel (i + 1)

/-- Python `s.find(sub, start)`: a negative `start` counts from the end of the
string (clamped at 0); the result is the lowest index at or after `start`
where `sub` occurs, or `-1`. -/
def pyFind (s sub : List Char) (start : Int) : Int :=
  let st : Nat := if start < 0 then (start + s.length).toNat else start.toNat
  pyFindAux s sub (s.length + 1) st

/-- Auxiliary scan for `pyReplaceAll`. -/
def pyReplaceAux (old : List Char) : Nat → List Char → List Char
  | 0, s => s
  | fuel + 1, s =>
    match s with
    | [] => []
    | c :: rest =>
      if old ≠ [] ∧ old.isPrefixOf (c :: rest) then
        pyReplaceAux old fuel ((c :: rest).drop old.length)
      else c :: pyReplaceAux old fuel rest

/-- Python `s.replace(old, '')`: remove every occurrence of `old`, scanning
left to right without overlap. -/
def pyReplaceAll (s old : List Char) : List Char :=
  pyReplaceAux old (s.length + 1) s

/-- Length of the leading run of newline characters. -/
def leadingNewlines : List Char → Nat
  | [] => 0
  | c :: r => if c = '\n' then leadingNewlines r + 1 else 0

/-- Auxiliary scan for `collapseNewlines`. -/
def collapseAux : Nat → List Char → List Char
  | 0, s => s
  | fuel + 1, s =>
    match s with
    | [] => []
    | c :: r =>
      if c = '\n' then
        let n := leadingNewlines r + 1
        if 2 ≤ n then '\n' :: '\n' :: collapseAux fuel (r.drop (n - 1))
        else c :: collapseAux fuel r
      else c :: collapseAux fuel r

/-- Python `re.sub(r'\n\n+', '\n\n', s)`: every maximal run of two or more
newlines is collapsed to exactly two. -/
def collapseNewlines (s : List Char) : List Char :=
  collapseAux (s.length + 1) s

/-- Python slice `s[:i]` (a negative `i` counts from the end, clamped at 0). -/
def pySliceTo (s : List Char) (i : Int) : List Char :=
  s.take (if i < 0 then (i + s.length).toNat else i.toNat)

/-- Python slice `s[i:]` (a negative `i` counts from the end, clamped at 0). -/
def pySliceFrom (s : List Char) (i : Int) : List Char :=
  s.drop (if i < 0 then (i + s.length).toNat else i.toNat)

/-- Auxiliary scan for `pySplit`. -/
def pySplitAux : Nat → List Char → List (List Char)
  | 0, _ => []
  | fuel + 1, s =>
    let s1 := s.dropWhile isPySpace
    match s1 with
    | [] => []
    | _ :: _ =>
      s1.takeWhile (fun c => !isPySpace c) ::
        pySplitAux fuel (s1.dropWhile (fun c => !isPySpace c))

/-- Python `s.split()` with no argument: tokens separated by runs of
whitespace, with no empty tokens. -/
def pySplit (s : List Char) : List (List Char) :=
  pySplitAux (s.length + 1) s

/-- Python string comparison `a <= b`: lexicographic by code point, with a
proper prefix ordered first. -/
def strLe : List Char → List Char → Bool
  | [], _ => true
  | _ :: _, [] => false
  | a :: as, b :: bs =>
    if a.toNat < b.toNat then true
    else if b.toNat < a.toNat then false
    else strLe as bs

/-- `strLe` as a relation, for use with `List.insertionSort`. -/
def strLeR (a b : List Char) : Prop := strLe a b = true

instance : DecidableRel strLeR := fun a b =>
  inferInstanceAs (Decidable (strLe a b = true))

theorem strLe_total (a b : List Char) : strLe a b = true ∨ strLe b a = true := by
  induction a generalizing b with
  | nil => exact Or.inl rfl
  | cons x xs ih =>
    cases b with
    | nil => exact Or.inr rfl
    | cons y ys =>
      by_cases hxy : x.toNat < y.toNat
      · exact Or.inl (by simp [strLe, hxy])
      · by_cases hyx : y.toNat < x.toNat
        · exact Or.inr (by simp [strLe, hyx])
        · rcases ih ys with h | h
          · exact Or.inl (by simp [strLe, hxy, hyx, h])
          · exact Or.inr (by simp [strLe, hxy, hyx, h])

theorem strLe_head_cases {x y : Char} {xs ys : List Char}
    (h : strLe (x :: xs) (y :: ys) = true) :
    x.toNat < y.toNat ∨ (x.toNat = y.toNat ∧ strLe xs ys = true) := by
  by_cases h1 : x.toNat < y.toNat
  · exact Or.inl h1
  · by_cases h2 : y.toNat < x.toNat
    · simp [strLe, h1, h2] at h
    · exact Or.inr ⟨by omega, by simpa [strLe, h1, h2] using h⟩

theorem strLe_trans {a b c : List Char} (hab : strLe a b = true)
    (hbc : strLe b c = true) : strLe a c = true := by
  induction a generalizing b c with
  | nil => rfl
  | cons x xs ih =>
    cases b with
    | nil => simp [strLe] at hab
    | cons y ys =>
      cases c with
      | nil => simp [strLe] at hbc
      | cons z zs =>
        rcases strLe_head_cases hab with h | ⟨he, hs⟩ <;>
          rcases strLe_head_cases hbc with h' | ⟨he', hs'⟩
        · simp [strLe, Nat.lt_trans h h']
        · simp [strLe, he' ▸ h]
        · simp [strLe, he ▸ h']
        · have hez : x.toNat = z.toNat := he.trans he'
          simp [strLe, hez, Nat.lt_irrefl, ih hs hs']

instance : IsTotal (List Char) strLeR := ⟨strLe_total⟩

instance : IsTrans (List Char) strLeR := ⟨fun _ _ _ => strLe_trans⟩

/-- Python `sorted` on a collection of strings: stable sort by the code-point
lexicographic order. -/
def pySorted (l : List (List Char)) : List (List Char) :=
  List.insertionSort strLeR l

/-- Adding an element to a Python `set`, modelled as an order-insensitive
duplicate-free list (the order is irrelevant because the source only ever
consumes the set through `sorted`). -/
def addUniq (acc : List (List Char)) (x : List Char) : List (List Char) :=
  if x ∈ acc then acc else acc ++ [x]

/-- Non-overlapping occurrence count of `sub` in `s`, Python `s.count(sub)`
for nonempty `sub`. -/
def countOccAux (sub : List Char) : Nat → List Char → Nat
  | 0, _ => 0
  | fuel + 1, s =>
    match s with
    | [] => 0
    | c :: rest =>
      if sub.isPrefixOf (c :: rest) then
        countOccAux sub fuel ((c :: rest).drop sub.length) + 1
      else countOccAux sub fuel rest

def countOcc (s sub : List Char) : Nat :=
  countOccAux sub (s.length + 1) s

/-- Regular-expression abstract syntax covering exactly the constructs used by
the source patterns: literals, single-character classes, concatenation,
alternation, lazy and greedy Kleene star, capturing groups, lookahead `(?=R)`,
and `$`. -/
inductive RE where
  | lit : List Char → RE
  | cls : (Char → Bool) → RE
  | seq : RE → RE → RE
  | alt : RE → RE → RE
  | starL : RE → RE
  | starG : RE → RE
  | grp : Nat → RE → RE
  | look : RE → RE
  | eos : RE

/-- Lazy `X+?`: one occurrence, then as few more as possible. -/
def RE.plusL (a : RE) : RE := .seq a (.starL a)

/-- Greedy `X+`: one occurrence, then as many more as possible. -/
def RE.plusG (a : RE) : RE := .seq a (.starG a)

/-- Captured groups of a match: (group index, start offset, end offset). -/
abbrev Caps := List (Nat × Nat × Nat)

/-- Backtracking matcher in continuation-passing style, mirroring the Python
`re` engine's search order: alternation tries its left branch first, a lazy
star tries the continuation before consuming an iteration, a greedy star tries
an iteration before the continuation, `(?=R)` matches `R` without advancing,
and `$` (without `re.MULTILINE`) matches at the end of the subject or just
before a final trailing newline.  `fuel` bounds recursion depth and is chosen
large enough never to run out on the subjects considered. -/
def mrun (s : List Char) : Nat → RE → Nat → Caps →
    (Nat → Caps → Option (Nat × Caps)) → Option (Nat × Caps)
  | 0, _, _, _, _ => none
  | fuel + 1, re, pos, caps, k =>
    match re with
    | .lit cs => if cs.isPrefixOf (s.drop pos) then k (pos + cs.length) caps else none
    | .cls p =>
      match s.get? pos with
      | some c => if p c then k (pos + 1) caps else none
      | none => none
    | .seq a b => mrun s fuel a pos caps (fun p c => mrun s fuel b p c k)
    | .alt a b =>
      match mrun s fuel a pos caps k with
      | some r => some r
      | none => mrun s fuel b pos caps k
    | .starL a =>
      match k pos caps with
      | some r => some r
      | none => mrun s fuel a pos caps (fun p c =>
          if p = pos then none else mrun s fuel (.starL a) p c k)
    | .starG a =>
      match mrun s fuel a pos caps (fun p c =>
          if p = pos then none else mrun s fuel (.starG a) p c k) with
      | some r => some r
      | none => k pos caps
    | .grp i a => mrun s fuel a pos caps (fun p c => k p ((i, pos, p) :: c))
    | .look a =>
      match mrun s fuel a pos caps (fun p c => some (p, c)) with
      | some _ => k pos caps
      | none => none
    | .eos =>
      if pos = s.length || (pos + 1 = s.length && s.get? pos = some '\n') then
        k pos caps
      else none

/-- Matcher fuel: recursion depth is bounded by the (fixed, small) pattern
size plus a small multiple of the subject length, so this is always ample. -/
def reFuel (s : List Char) : Nat := 8 * s.length + 64

/-- Attempt a match of `re` anchored at position `pos` of `s`. -/
def matchAt (re : RE) (s : List Char) (pos : Nat) : Option (Nat × Caps) :=
  mrun s (reFuel s) re pos [] (fun p c => some (p, c))

/-- `re.search` from a given position: the match at the lowest starting
position at or after it. -/
def searchFrom (re : RE) (s : List Char) : Nat → Nat → Option (Nat × Nat × Caps)
  | 0, _ => none
  | fuel + 1, pos =>
    if pos > s.length then none
    else
      match matchAt re s pos with
      | some (e, caps) => some (pos, e, caps)
      | none => searchFrom re s fuel (pos + 1)

/-- `re.findall` scanning: non-overlapping matches left to right, resuming at
each match's end (one past it for an empty match). -/
def findallFrom (re : RE) (s : List Char) : Nat → Nat → List (Nat × Nat × Caps)
  | 0, _ => []
  | fuel + 1, pos =>
    match searchFrom re s (s.length + 1 - pos) pos with
    | none => []
    | some (b, e, caps) =>
      (b, e, caps) :: findallFrom re s fuel (if e > b then e else e + 1)

/-- All matches of `re` in `s`, as (start, end, captures). -/
def findall (re : RE) (s : List Char) : List (Nat × Nat × Caps) :=
  findallFrom re s (s.length + 1) 0

/-- The slice `s[b:e]`. -/
def slice (s : List Char) (b e : Nat) : List Char := (s.take e).drop b

/-- The text captured by group `i` (empty if the group is unset). -/
def capStr (s : List Char) (caps : Caps) (i : Nat) : List Char :=
  match caps.find? (fun t => t.1 = i) with
  | some (_, b, e) => slice s b e
  | none => []

/-- Source pattern `r'RUN apt-get update.*?(?=\n[^\n]|$)'`, compiled with
`re.DOTALL` (so `.` matches any character including newline). -/
def apt_pattern : RE :=
  .seq (.lit (chars "RUN apt-get update"))
    (.seq (.starL (.cls (fun _ => true)))
      (.look (.alt (.seq (.cls (fun c => c = '\n')) (.cls (fun c => c ≠ '\n'))) .eos)))

/-- Source pattern `r'RUN (?:pip|pip3) install.*?(?=\n[^\n]|$)'`, compiled
with `re.DOTALL`. -/
def pip_pattern : RE :=
  .seq (.lit (chars "RUN "))
    (.seq (.alt (.lit (chars "pip")) (.lit (chars "pip3")))
      (.seq (.lit (chars " install"))
        (.seq (.starL (.cls (fun _ => true)))
          (.look (.alt (.seq (.cls (fun c => c = '\n')) (.cls (fun c => c ≠ '\n'))) .eos)))))

/-- Source pattern `r'install -y\s+(.+?)[\s\\]*\n'` (no `re.DOTALL`, so `.`
excludes newline while `\s` includes it). -/
def apt_extract_pattern : RE :=
  .seq (.lit (chars "install -y"))
    (.seq (.plusG (.cls isPySpace))
      (.seq (.grp 1 (.plusL (.cls (fun c => c ≠ '\n'))))
        (.seq (.starG (.cls (fun c => isPySpace c || c = '\\')))
          (.lit ['\n']))))

/-- Source pattern `r'install\s+(.+?)[\s\\]*\n'` (no `re.DOTALL`). -/
def pip_extract_pattern : RE :=
  .seq (.lit (chars "install"))
    (.seq (.plusG (.cls isPySpace))
      (.seq (.grp 1 (.plusL (.cls (fun c => c ≠ '\n'))))
        (.seq (.starG (.cls (fun c => isPySpace c || c = '\\')))
          (.lit ['\n']))))

/-- Source pattern `r'COPY\s+(.+?)\s+(.+?)[\s\\]*\n'` (no `re.DOTALL`). -/
def copy_pattern : RE :=
  .seq (.lit (chars "COPY"))
    (.seq (.plusG (.cls isPySpace))
      (.seq (.grp 1 (.plusL (.cls (fun c => c ≠ '\n'))))
        (.seq (.plusG (.cls isPySpace))
          (.seq (.grp 2 (.plusL (.cls (fun c => c ≠ '\n'))))
            (.seq (.starG (.cls (fun c => isPySpace c || c = '\\')))
              (.lit ['\n']))))))

/-- `re.findall(apt_pattern, s, re.DOTALL)`: the pattern has no groups, so
each element is the whole matched span. -/
def apt_commands_of (s : List Char) : List (List Char) :=
  (findall apt_pattern s).map (fun t => slice s t.1 t.2.1)

/-- `re.findall(pip_pattern, s, re.DOTALL)`. -/
def pip_commands_of (s : List Char) : List (List Char) :=
  (findall pip_pattern s).map (fun t => slice s t.1 t.2.1)

/-- `re.findall(copy_pattern, s)`: two groups, so each element is the
(source, destination) pair of captures. -/
def copy_commands_of (s : List Char) : List (List Char × List Char) :=
  (findall copy_pattern s).map (fun t => (capStr s t.2.2 1, capStr s t.2.2 2))

/-- `re.findall(pat, cmd)` for a one-group extraction pattern: the list of
group-1 captures. -/
def pkg_matches_of (pat : RE) (cmd : List Char) : List (List Char) :=
  (findall pat cmd).map (fun t => capStr cmd t.2.2 1)

/-- The package-set accumulation shared by the apt and pip passes:
`packages.update(pkg_matches[0].split() if pkg_matches else [])` over all
matched commands, then `sorted(packages)`. -/
def collect_packages (pat : RE) (cmds : List (List Char)) : List (List Char) :=
  pySorted (cmds.foldl (fun acc cmd =>
    (match pkg_matches_of pat cmd with
     | g :: _ => pySplit g
     | [] => []).foldl addUniq acc) [])

namespace DockerfileOptimizer

/-- The sorted package names the apt pass extracts from its matched spans. -/
def apt_packages (cmds : List (List Char)) : List (List Char) :=
  collect_packages apt_extract_pattern cmds

/-- The canonical merged apt instruction built from a sorted package list
(`combined_command` in `optimize_apt_commands`). -/
def apt_combined_command (packages : List (List Char)) : List Char :=
  chars "RUN apt-get update && \\\n" ++
  chars "    DEBIAN_FRONTEND=noninteractive \\\n" ++
  chars "    apt-get install -y --no-install-recommends \\\n" ++
  chars "        " ++ List.intercalate (chars " \\\n        ") packages ++ chars " \\\n" ++
  chars "    && apt-get clean \\\n" ++
  chars "    && rm -rf /var/lib/apt/lists/*"

/-- `DockerfileOptimizer.optimize_apt_commands` (source lines 37-69): match
apt spans, build the canonical instruction from the union of extracted
package names, remove the matched spans by textual replacement, collapse
blank-line runs, and splice the canonical instruction after the first
newline at or after the first occurrence of `FROM` (computed with Python's
`str.find`, which yields `-1` fallbacks rather than an error). -/
def optimize_apt_commands (dockerfile_content : List Char) : List Char :=
  let apt_commands := apt_commands_of dockerfile_content
  if apt_commands = [] then dockerfile_content
  else
    let combined_command := apt_combined_command (apt_packages apt_commands)
    let removed := apt_commands.foldl (fun c cmd => pyReplaceAll c cmd) dockerfile_content
    let collapsed := collapseNewlines removed
    let from_idx := pyFind collapsed (chars "\n") (pyFind collapsed (chars "FROM") 0)
    pySliceTo collapsed from_idx ++ chars "\n" ++ combined_command ++
      pySliceFrom collapsed from_idx

/-- The sorted package names the pip pass extracts from its matched spans. -/
def pip_packages (cmds : List (List Char)) : List (List Char) :=
  collect_packages pip_extract_pattern cmds

/-- The canonical replacement block of the pip pass (`combined_command` in
`optimize_pip_commands`). -/
def pip_combined_command : List Char :=
  chars "COPY requirements.txt /tmp/\n" ++
  chars "RUN pip install --no-cache-dir -r /tmp/requirements.txt && \\\n" ++
  chars "    rm /tmp/requirements.txt"

/-- `DockerfileOptimizer.optimize_pip_commands` (source lines 71-103).  The
second component is the pass's file-system effect log: the source opens
`requirements.txt` for writing and writes the sorted package names joined by
newlines whenever any pip span matched. -/
def optimize_pip_commands (dockerfile_content : List Char) :
    List Char × List (List Char × List Char) :=
  let pip_commands := pip_commands_of dockerfile_content
  if pip_commands = [] then (dockerfile_content, [])
  else
    let packages := pip_packages pip_commands
    let file_writes := [(chars "requirements.txt", List.intercalate (chars "\n") packages)]
    let removed := pip_commands.foldl (fun c cmd => pyReplaceAll c cmd) dockerfile_content
    let collapsed := collapseNewlines removed
    let from_idx := pyFind collapsed (chars "\n") (pyFind collapsed (chars "FROM") 0)
    (pySliceTo collapsed from_idx ++ chars "\n" ++ pip_combined_command ++
      pySliceFrom collapsed from_idx, file_writes)

/-- The fixed `.dockerignore` entry list of `optimize_copy_commands`. -/
def dockerignore_entries : List (List Char) :=
  [chars ".git", chars ".gitignore", chars "Dockerfile", chars ".dockerignore",
   chars "__pycache__", chars "*.pyc", chars "*.pyo", chars "*.pyd",
   chars ".Python", chars "env", chars "pip-log.txt",
   chars "pip-delete-this-directory.txt", chars ".tox", chars ".coverage",
   chars ".coverage.*", chars "htmlcov", chars ".pytest_cache", chars ".env",
   chars ".venv", chars "venv", chars "node_modules", chars "npm-debug.log"]

/-- Grouping of matched copy commands by destination, preserving both the
first-encounter order of destinations and the per-destination source order
(Python dict insertion order). -/
def copy_groups (copy_commands : List (List Char × List Char)) :
    List (List Char × List (List Char)) :=
  copy_commands.foldl (fun groups sd =>
    if groups.any (fun g => g.1 = sd.2) then
      groups.map (fun g => if g.1 = sd.2 then (g.1, g.2 ++ [sd.1]) else g)
    else groups ++ [(sd.2, [sd.1])]) []

/-- The re-emitted copy instructions: a single-source destination yields a
direct two-argument instruction, a multi-source destination yields one
instruction listing all sources with `/` appended to the destination. -/
def optimized_copies (groups : List (List Char × List (List Char))) :
    List (List Char) :=
  groups.map (fun g =>
    if g.2.length = 1 then chars "COPY " ++ g.2.headD [] ++ chars " " ++ g.1
    else
      chars "COPY " ++ List.intercalate (chars " ") g.2 ++ chars " " ++
        g.1 ++ chars "/")

/-- `DockerfileOptimizer.optimize_copy_commands` (source lines 105-173):
returns the rewritten text together with the fixed ignore-entry list, which
is produced unconditionally and never depends on the document. -/
def optimize_copy_commands (dockerfile_content : List Char) :
    List Char × List (List Char) :=
  let copy_commands := copy_commands_of dockerfile_content
  if copy_commands = [] then (dockerfile_content, dockerignore_entries)
  else
    let removed := copy_commands.foldl
      (fun c sd => pyReplaceAll c (chars "COPY " ++ sd.1 ++ chars " " ++ sd.2))
      dockerfile_content
    let p := pyFind removed (chars "CMD") 0
    let copy_insert_point : Nat := if p = -1 then removed.length else p.toNat
    (removed.take copy_insert_point ++
      List.intercalate (chars "\n") (optimized_copies (copy_groups copy_commands)) ++
      chars "\n" ++ removed.drop copy_insert_point, dockerignore_entries)

/-- The fixed build-argument block of `add_build_optimization_args`. -/
def build_args : List Char :=
  chars "# Build arguments for optimization\nARG BUILDKIT_INLINE_CACHE=1\nARG DOCKER_BUILDKIT=1\n"

/-- `DockerfileOptimizer.add_build_optimization_args` (source lines 175-182):
the fixed block is concatenated in front of the document. -/
def add_build_optimization_args (dockerfile_content : List Char) : List Char :=
  build_args ++ dockerfile_content

end DockerfileOptimizer

open DockerfileOptimizer

/-- The result of the full rewrite pipeline: the rewritten text, the ignore
globs, and the file-system writes the passes perform. -/
structure RewriteResult where
  text : List Char
  ignore_globs : List (List Char)
  file_writes : List (List Char × List Char)
deriving DecidableEq

/-- The full rewrite pipeline as orchestrated by
`DockerfileAnalyzer.analyze_dockerfile` (source lines 245-248): apt pass,
then pip pass, then copy pass, then build-argument prepend. -/
def rewrite (d : List Char) : RewriteResult :=
  let c1 := optimize_apt_commands d
  let pr := optimize_pip_commands c1
  let cr := optimize_copy_commands pr.1
  { text := add_build_optimization_args cr.1
    ignore_globs := cr.2
    file_writes := pr.2 }

/-- The `.dockerignore` persistence decision of
`DockerfileAnalyzer.analyze_dockerfile` (source lines 250-254): the joined
entry list is written only when no `.dockerignore` exists at the target
location. -/
def save_dockerignore (already_exists : Bool) (entries : List (List Char)) :
    Option (List Char) :=
  if already_exists then none else some (List.intercalate (chars "\n") entries)

/-! Concrete documents used by the theorems below. -/

/-- A minimal valid document: a base image and an entrypoint, nothing the
rewrite passes match. -/
def doc_minimal : List Char := chars "FROM a\nCMD b\n"

/-- A document with an apt install span but no base-image declaration,
ending in a newline. -/
def doc_no_from : List Char := chars "RUN apt-get update && apt-get install -y zz\nX\n"

/-- A document with an apt install span but no base-image declaration, not
ending in a newline. -/
def doc_no_from_no_nl : List Char := chars "RUN apt-get update && apt-get install -y zz\nX"

/-- A well-formed document with a base image and a single-line apt install
of `python3`, followed by another instruction. -/
def doc_apt_single : List Char :=
  chars "FROM a\nRUN apt-get update && apt-get install -y python3\nRUN x\n"

/-- The pipeline output on `doc_apt_single` (the merged install instruction
carries no packages: `python3` has been dropped). -/
def out_apt_single : List Char :=
  chars "# Build arguments for optimization\nARG BUILDKIT_INLINE_CACHE=1\nARG DOCKER_BUILDKIT=1\nFROM a\nRUN apt-get update && \\\n    DEBIAN_FRONTEND=noninteractive \\\n    apt-get install -y --no-install-recommends \\\n         \\\n    && apt-get clean \\\n    && rm -rf /var/lib/apt/lists/*\n\nRUN x\n"

/-- Two equivalent apt install instructions (`aa`, then `bb`), with a blank
line after the first. -/
def doc_reorder_a : List Char :=
  chars "FROM x\nRUN apt-get update && apt-get install -y aa\n\nRUN apt-get update && apt-get install -y bb\nCMD y\n"

/-- `doc_reorder_a` with the two install instructions swapped: the same
package set `{aa, bb}` is referenced, only the instruction order differs. -/
def doc_reorder_b : List Char :=
  chars "FROM x\nRUN apt-get update && apt-get install -y bb\n\nRUN apt-get update && apt-get install -y aa\nCMD y\n"

/-- One install span listing `aa bb`, captured with its trailing newline. -/
def doc_pair_ab : List Char :=
  chars "FROM x\nRUN apt-get update && apt-get install -y aa bb\n\nCMD y\n"

/-- `doc_pair_ab` with the two package tokens swapped on the install line. -/
def doc_pair_ba : List Char :=
  chars "FROM x\nRUN apt-get update && apt-get install -y bb aa\n\nCMD y\n"

/-- Copy instructions `A.txt -> /x`, `B.txt -> /x`, `C.txt -> /y`. -/
def doc_copy_group : List Char :=
  chars "FROM u\nCOPY A.txt /x\nCOPY B.txt /x\nCOPY C.txt /y\nCMD z\n"

/-- The pipeline output on `doc_copy_group`. -/
def out_copy_group : List Char :=
  chars "# Build arguments for optimization\nARG BUILDKIT_INLINE_CACHE=1\nARG DOCKER_BUILDKIT=1\nFROM u\n\n\n\nCOPY A.txt B.txt /x/\nCOPY C.txt /y\nCMD z\n"

/-- A document whose single apt install span extracts package `aa` (the span
is followed by a blank line, so its trailing newline is captured). -/
def doc_apt_anchor : List Char :=
  chars "FROM x\nRUN apt-get update && apt-get install -y aa\n\nCMD y\n"

/-- The apt pass output on `doc_apt_anchor`: the canonical instruction sits
immediately after the `FROM x` line. -/
def out_apt_anchor : List Char :=
  chars "FROM x\nRUN apt-get update && \\\n    DEBIAN_FRONTEND=noninteractive \\\n    apt-get install -y --no-install-recommends \\\n        aa \\\n    && apt-get clean \\\n    && rm -rf /var/lib/apt/lists/*\n\nCMD y\n"

/-- The example Dockerfile that `main` writes when none exists (source lines
332-340): two apt installs (`python3`, `nginx`), two pip installs (`flask`,
`requests`), one copy `app.py -> /app/`. -/
def example_dockerfile : List Char :=
  chars "FROM ubuntu:latest\nRUN apt-get update && apt-get install -y python3\nRUN apt-get update && apt-get install -y nginx\nRUN pip3 install flask\nRUN pip3 install requests\nCOPY app.py /app/\nRUN chmod +x /app/app.py\nEXPOSE 8080\nCMD [\"/app/app.py\"]"

/-- The pipeline output on `example_dockerfile`: the merged install
instruction lists no packages at all, and all four package names are gone. -/
def example_output : List Char :=
  chars "# Build arguments for optimization\nARG BUILDKIT_INLINE_CACHE=1\nARG DOCKER_BUILDKIT=1\nFROM ubuntu:latest\n\nRUN pip install --no-cache-dir -r /tmp/requirements.txt && \\\n    rm /tmp/requirements.txt\nRUN apt-get update && \\\n    DEBIAN_FRONTEND=noninteractive \\\n    apt-get install -y --no-install-recommends \\\n         \\\n    && apt-get clean \\\n    && rm -rf /var/lib/apt/lists/*\n\n\nRUN chmod +x /app/app.py\nEXPOSE 8080\nCOPY requirements.txt /tmp/\nCOPY app.py /app/\nCMD [\"/app/app.py\"]"

/-- A document with a single pip install span (`flask`), captured with its
trailing newline. -/
def doc_pip_single : List Char := chars "FROM a\nRUN pip3 install flask\n\nCMD b\n"

/-- The apt pass output on `doc_no_from`: the canonical instruction is
spliced before the final newline of the document. -/
def out_no_from : List Char :=
  chars "\nX\nRUN apt-get update && \\\n    DEBIAN_FRONTEND=noninteractive \\\n    apt-get install -y --no-install-recommends \\\n         \\\n    && apt-get clean \\\n    && rm -rf /var/lib/apt/lists/*\n"

/-- The apt pass output on `doc_no_from_no_nl`: the canonical instruction is
spliced before the last character of the document. -/
def out_no_from_no_nl : List Char :=
  chars "\n\nRUN apt-get update && \\\n    DEBIAN_FRONTEND=noninteractive \\\n    apt-get install -y --no-install-recommends \\\n         \\\n    && apt-get clean \\\n    && rm -rf /var/lib/apt/lists/*X"

/-! Helper lemmas shared by the claim theorems. -/

theorem optimize_copy_commands_snd (d : List Char) :
    (optimize_copy_commands d).2 = dockerignore_entries := by
  by_cases h : copy_commands_of d = [] <;> simp [optimize_copy_commands, h]

set_option maxRecDepth 4000000
set_option maxHeartbeats 16000000

/-! Claim theorems. -/

/-- Claim C1 counterexample: the pipeline is not idempotent.  On the minimal
valid document `FROM a\nCMD b\n`, running the pipeline on its own output does
not return that output: the build-argument block is prepended a second time. -/
theorem rewrite_not_idempotent :
    (rewrite (rewrite doc_minimal).text).text ≠ (rewrite doc_minimal).text := by
  decide

/-- Claim C1 (amended): the pipeline is not idempotent; every run
unconditionally prepends the build-argument block, so a second run on an
output in which no install or copy span matches returns exactly the
build-argument block prepended to that output, never the output itself. -/
theorem rewrite_on_unmatched_doc_prepends (s : List Char)
    (h1 : apt_commands_of s = []) (h2 : pip_commands_of s = [])
    (h3 : copy_commands_of s = []) :
    (rewrite s).text = build_args ++ s := by
  unfold rewrite optimize_apt_commands optimize_pip_commands
    optimize_copy_commands add_build_optimization_args
  simp [h1, h2, h3]

/-- Witness for C1's amended theorem, at the first run's output on the
minimal document: the second run prepends the build-argument block again. -/
theorem rewrite_on_unmatched_doc_prepends_witness :
    (rewrite (rewrite doc_minimal).text).text =
      build_args ++ (rewrite doc_minimal).text :=
  rewrite_on_unmatched_doc_prepends (rewrite doc_minimal).text
    (by decide) (by decide) (by decide)

/-- Claim C2 counterexample: on a document containing a package-install span
but no base-image declaration, the rewrite signals nothing and returns a
rewritten document (it differs from the mere build-argument prepend of the
input, so a partially rewritten output is produced). -/
theorem no_from_produces_output :
    (rewrite doc_no_from).text = build_args ++ out_no_from ∧
    (rewrite doc_no_from).text ≠ add_build_optimization_args doc_no_from := by
  constructor <;> decide

/-- Claim C2 (amended): no `MalformedDocument` condition exists in the code.
When the base-image declaration is absent, `find` returns `-1` and the splice
falls back to the end of the document: the canonical install instruction is
inserted before the final newline when the document ends with one, and
otherwise before the document's last character. -/
theorem no_from_end_splice :
    optimize_apt_commands doc_no_from = out_no_from ∧
    optimize_apt_commands doc_no_from_no_nl = out_no_from_no_nl := by
  constructor <;> decide

/-- Claim C3, evaluated at a failing input: conservation fails.  The install
span `RUN apt-get update && apt-get install -y python3` is matched and
removed, but because the matched span carries no trailing newline the
extraction pattern finds nothing, so `python3` does not appear anywhere in
the rewritten output. -/
theorem conservation_fails_at_failing_input :
    (rewrite doc_apt_single).text = out_apt_single ∧
    countOcc out_apt_single (chars "python3") = 0 := by
  constructor <;> decide

/-- Claim C4 counterexample: two documents differing only in the order of
their two install instructions (referencing the same package set `{aa, bb}`)
produce different canonical install instructions, because extraction succeeds
only for the span whose trailing newline is captured (the one followed by the
blank line). -/
theorem reorder_changes_canonical_instruction :
    apt_packages (apt_commands_of doc_reorder_a) ≠
      apt_packages (apt_commands_of doc_reorder_b) ∧
    apt_combined_command (apt_packages (apt_commands_of doc_reorder_a)) ≠
      apt_combined_command (apt_packages (apt_commands_of doc_reorder_b)) ∧
    optimize_apt_commands doc_reorder_a ≠ optimize_apt_commands doc_reorder_b := by
  refine ⟨by decide, by decide, by decide⟩

/-- Claim C4 (amended): the canonical package-install instruction is a
function of the extracted package list alone, which is sorted
lexicographically ascending; two documents whose spans extract the same
package list therefore receive byte-identical canonical instructions.  (Full
reorder-invariance fails because extraction itself depends on each span's
following context; see the counterexample.) -/
theorem canonical_instruction_determined_by_packages (s1 s2 : List Char)
    (h : apt_packages (apt_commands_of s1) = apt_packages (apt_commands_of s2)) :
    apt_combined_command (apt_packages (apt_commands_of s1)) =
      apt_combined_command (apt_packages (apt_commands_of s2)) ∧
    List.Sorted strLeR (apt_packages (apt_commands_of s1)) := by
  refine ⟨by rw [h], ?_⟩
  haveI : IsTotal (List Char) strLeR := ⟨strLe_total⟩
  haveI : IsTrans (List Char) strLeR := ⟨fun _ _ _ => strLe_trans⟩
  exact List.sorted_insertionSort strLeR _

/-- Witness for C4's amended theorem: the two token orders `aa bb` and
`bb aa` extract the same package list, and the canonical instructions are
byte-identical. -/
theorem canonical_instruction_determined_by_packages_witness :
    apt_combined_command (apt_packages (apt_commands_of doc_pair_ab)) =
      apt_combined_command (apt_packages (apt_commands_of doc_pair_ba)) :=
  (canonical_instruction_determined_by_packages doc_pair_ab doc_pair_ba
    (by decide)).1

/-- Claim C5: copy grouping correctness.  For any sources `A`, `B`, `C` and
distinct destinations `x ≠ y`, grouping `A -> x`, `B -> x`, `C -> y` emits
exactly the grouped instruction `COPY A B x/` followed by the direct
instruction `COPY C y`, in first-encounter order of the destinations; and on
the concrete document with `A.txt`, `B.txt` -> `/x` and `C.txt` -> `/y` the
rewritten output contains exactly one grouped `/x` instruction, exactly one
direct `/y` instruction, no other copy instruction, with the `/x` group
first. -/
theorem copy_grouping_correct :
    (∀ A B C x y : List Char, x ≠ y →
      optimized_copies (copy_groups [(A, x), (B, x), (C, y)]) =
        [chars "COPY " ++ A ++ chars " " ++ B ++ chars " " ++ x ++ chars "/",
         chars "COPY " ++ C ++ chars " " ++ y]) ∧
    (rewrite doc_copy_group).text = out_copy_group ∧
    countOcc out_copy_group (chars "COPY A.txt B.txt /x/") = 1 ∧
    countOcc out_copy_group (chars "COPY C.txt /y") = 1 ∧
    countOcc out_copy_group (chars "COPY ") = 2 ∧
    pyFind out_copy_group (chars "COPY A.txt B.txt /x/") 0 <
      pyFind out_copy_group (chars "COPY C.txt /y") 0 := by
  refine ⟨?_, by decide, by decide, by decide, by decide, by decide⟩
  intro A B C x y h
  simp [copy_groups, optimized_copies, List.intercalate, h]

/-- Witness for C5's theorem, instantiating its universal part at the
concrete sources and destinations of the specification's example. -/
theorem copy_grouping_correct_witness :
    optimized_copies (copy_groups
        [(chars "A.txt", chars "/x"), (chars "B.txt", chars "/x"),
         (chars "C.txt", chars "/y")]) =
      [chars "COPY " ++ chars "A.txt" ++ chars " " ++ chars "B.txt" ++
         chars " " ++ chars "/x" ++ chars "/",
       chars "COPY " ++ chars "C.txt" ++ chars " " ++ chars "/y"] :=
  copy_grouping_correct.1 (chars "A.txt") (chars "B.txt") (chars "C.txt")
    (chars "/x") (chars "/y") (by decide)

/-- Claim C6 counterexample: the build-argument block is not inserted after
the first base-image declaration line; it is prepended at the very start, so
in the output the first `ARG ` occurrence precedes the first `FROM`. -/
theorem build_args_precede_base_image :
    (rewrite doc_minimal).text = build_args ++ doc_minimal ∧
    pyFind (build_args ++ doc_minimal) (chars "ARG ") 0 <
      pyFind (build_args ++ doc_minimal) (chars "FROM") 0 := by
  constructor <;> decide

/-- Claim C6 (amended): the package-install canonical instruction is anchored
immediately after the first base-image declaration line (shown on a concrete
document), while the build-argument block is prepended at the start of the
document, before the base-image line, for every input. -/
theorem anchor_placement_amended :
    (∀ s : List Char, add_build_optimization_args s = build_args ++ s) ∧
    optimize_apt_commands doc_apt_anchor = out_apt_anchor :=
  ⟨fun _ => rfl, by decide⟩

/-- Claim C7, evaluated at the failing input (the repository's own example
Dockerfile): the output does not contain a merged install instruction
listing `flask nginx python3 requests`; all four package names are absent
from the output, the merged apt instruction carries an empty package list,
and an empty `requirements.txt` is written. -/
theorem example_dockerfile_output :
    rewrite example_dockerfile =
      ⟨example_output, dockerignore_entries,
       [(chars "requirements.txt", chars "")]⟩ ∧
    countOcc example_output (chars "python3") = 0 ∧
    countOcc example_output (chars "nginx") = 0 ∧
    countOcc example_output (chars "flask") = 0 ∧
    countOcc example_output (chars "requests") = 0 := by
  refine ⟨by decide, by decide, by decide, by decide, by decide⟩

/-- Claim C8: ignore-list stability.  The ignore-glob list returned by the
copy pass is the same fixed constant for every pair of input documents, and
the persistence step writes the joined list exactly when no ignore file
already exists (a pre-existing one is never overwritten). -/
theorem ignore_globs_stable :
    (∀ d1 d2 : List Char,
      (optimize_copy_commands d1).2 = (optimize_copy_commands d2).2) ∧
    (∀ entries, save_dockerignore true entries = none) ∧
    (∀ entries, save_dockerignore false entries =
      some (List.intercalate (chars "\n") entries)) := by
  refine ⟨fun d1 d2 => ?_, fun _ => rfl, fun _ => rfl⟩
  rw [optimize_copy_commands_snd, optimize_copy_commands_snd]

/-- Claim C9 counterexample: the rewrite passes are not free of file-system
writes.  On a document with one pip install span, the pipeline's effect log
records a write of `requirements.txt` with content `flask`. -/
theorem pip_pass_writes_requirements :
    (rewrite doc_pip_single).file_writes =
      [(chars "requirements.txt", chars "flask")] ∧
    (rewrite doc_pip_single).file_writes ≠ [] := by
  constructor <;> decide

/-- Claim C9 (amended): the apt, copy, and build-argument passes perform no
file-system writes — every write of the pipeline comes from the pip pass —
and the pip pass writes `requirements.txt` (with the sorted extracted
package names joined by newlines) exactly when some pip install span
matches. -/
theorem pipeline_writes_come_from_pip_pass (d : List Char) :
    (rewrite d).file_writes = (optimize_pip_commands (optimize_apt_commands d)).2 ∧
    (optimize_pip_commands d).2 =
      (if pip_commands_of d = [] then []
       else [(chars "requirements.txt",
              List.intercalate (chars "\n") (pip_packages (pip_commands_of d)))]) := by
  refine ⟨rfl, ?_⟩
  by_cases h : pip_commands_of d = [] <;> simp [optimize_pip_commands, h]

/-- Claim C10: `add_build_optimization_args` returns the fixed two-ARG
build-argument block (with its comment header) concatenated in front of the
input, leaving the input byte-for-byte unchanged as the suffix of the
result, for every input document including the empty one. -/
theorem add_build_args_prepends (d : List Char) :
    add_build_optimization_args d =
      chars "# Build arguments for optimization\nARG BUILDKIT_INLINE_CACHE=1\nARG DOCKER_BUILDKIT=1\n" ++ d ∧
    d <:+ add_build_optimization_args d :=
  ⟨rfl, ⟨build_args, rfl⟩⟩

end ContainerImageOptimizer
